import Mathlib

/-!
Verification of the synthetic telemetry generation engine
(crypto market simulator and training simulators).

Numeric values are modelled over the rationals; the random draws the
source obtains from the random module are passed in explicitly as
parameters, together with the range constraints the library guarantees
for them.  Python call semantics for the two loop call sites whose
argument counts matter are modelled with an explicit arity check, as
Python performs at call time.
-/

namespace Screensavers

/-- Market snapshot record returned by MarketData.get_market_data
(market_data.py, lines 45 to 70). -/
structure MarketSnapshot where
  price : ℚ
  volume : ℚ
  high24h : ℚ
  low24h : ℚ
  priceChange24h : ℚ
  marketCap : ℚ
  ath : ℚ
  atl : ℚ
  volatility : ℚ
  dominance : ℚ
deriving DecidableEq, Repr

/-- Hardcoded fallback record returned when the external fetch fails
(market_data.py, lines 59 to 70). -/
def fallback_market_data : MarketSnapshot :=
  { price := 42000
    volume := 5000000
    high24h := 43000
    low24h := 41000
    priceChange24h := -1.5
    marketCap := 800000000000
    ath := 69000
    atl := 3000
    volatility := 0.02
    dominance := 45 }

/-- Raw data parsed out of a successful API response
(market_data.py, lines 31 to 43).  The 24h percentage change may be
missing, in which case the source substitutes 0. -/
structure RawCoinData where
  currentPrice : ℚ
  totalVolume : ℚ
  high24h : ℚ
  low24h : ℚ
  priceChangePct : Option ℚ
  marketCap : ℚ
  ath : ℚ
  atl : ℚ
deriving DecidableEq, Repr

/-- MarketData.get_market_data (market_data.py, lines 30 to 70): build a
snapshot from a successful fetch, or return the fallback record when the
fetch path raised. -/
def get_market_data (fetch : Except String RawCoinData) : MarketSnapshot :=
  match fetch with
  | Except.ok d =>
      let priceChange := d.priceChangePct.getD 0
      { price := d.currentPrice
        volume := d.totalVolume
        high24h := d.high24h
        low24h := d.low24h
        priceChange24h := priceChange
        marketCap := d.marketCap
        ath := d.ath
        atl := d.atl
        volatility := |priceChange| / 100
        dominance := 45 }
  | Except.error _ => fallback_market_data

/-- Result record of TechnicalIndicators.generate_indicators
(indicators.py, lines 25 to 32). -/
structure IndicatorSet where
  rsi : ℚ
  macd : ℚ
  obv : ℚ
  funding : ℚ
  cvd : ℚ
  oi : ℚ
deriving DecidableEq, Repr

/-- TechnicalIndicators.generate_indicators (indicators.py, lines 6 to 32).
The six random draws of the source are passed explicitly: nRsi is the
uniform(-10, 10) draw, nMacd the uniform(-20, 20) draw, nObv the
uniform(0.8, 1.2) draw, nFund the uniform(-0.05, 0.05) draw, nCvd the
uniform(-0.3, 0.3) draw and nOi the uniform(0.4, 1.6) draw. -/
def generate_indicators (volume : ℚ) (md : MarketSnapshot)
    (nRsi nMacd nObv nFund nCvd nOi : ℚ) : IndicatorSet :=
  let price_momentum := md.priceChange24h / 100
  { rsi := max (min (50 + price_momentum * 200 + nRsi) 95) 5
    macd := price_momentum * 100 + nMacd
    obv := volume * (1 + price_momentum) * nObv
    funding := price_momentum * 0.1 + nFund
    cvd := volume * price_momentum * nCvd
    oi := volume * (1.5 + price_momentum) * nOi }

/-- Support influence of the all-time high (indicators.py, line 58). -/
def ath_influence (ath current_price : ℚ) : ℚ :=
  -0.1 * (ath - current_price) / ath

/-- Support influence of the all-time low (indicators.py, line 59). -/
def atl_influence (atl current_price : ℚ) : ℚ :=
  0.1 * (current_price - atl) / current_price

/-- TechnicalIndicators.generate_market_metrics (indicators.py, lines 35
to 75).  The random draws are explicit parameters: longC, medC, shortC
and microC are the four uniform cycle draws, z is a standard gaussian
draw scaled by the actual volatility, and baseVolGauss is the
gauss(0, 0.1) draw for the volume change. -/
def generate_market_metrics (base_volatility current_price : ℚ)
    (md : MarketSnapshot) (longC medC shortC microC z baseVolGauss : ℚ) :
    ℚ × ℚ :=
  let trend := md.priceChange24h / 100 / 86400
  let athInfl := ath_influence md.ath current_price
  let atlInfl := atl_influence md.atl current_price
  let actual_volatility := base_volatility * (1 + |md.priceChange24h| / 100)
  let price_change :=
    z * actual_volatility + trend + longC + medC + shortC + microC + athInfl + atlInfl
  let volume_multiplier := 1 + |price_change| * 5
  let volume_change := baseVolGauss * volume_multiplier
  (price_change, volume_change)

/-- Number of parameters of the staticmethod
TechnicalIndicators.generate_market_metrics (indicators.py, line 35):
base_volatility, current_price, market_data. -/
def generate_market_metrics_paramCount : Nat := 3

/-- Number of positional arguments MarketSimulator.run passes to
generate_market_metrics (simulator.py, lines 97 to 99): elapsed,
base_volatility, current_price, market_data. -/
def run_market_metrics_argCount : Nat := 4

/-- Number of parameters of the staticmethod
TechnicalIndicators.generate_indicators (indicators.py, line 6): volume,
market_data. -/
def generate_indicators_paramCount : Nat := 2

/-- Number of positional arguments MarketSimulator.run passes to
generate_indicators (simulator.py, line 115): current_price,
current_volume, market_data. -/
def run_indicators_argCount : Nat := 3

/-- One pass of the body of the RUNNING loop of MarketSimulator.run up to
the indicator derivation (simulator.py, lines 92 to 115), with the call
arity checks Python performs at each call site made explicit.  Returns
the new price, the new volume and the derived indicators, or the
TypeError message Python raises. -/
def run_tick (elapsed base_volatility current_price current_volume : ℚ)
    (md : MarketSnapshot) (longC medC shortC microC z baseVolGauss : ℚ)
    (nRsi nMacd nObv nFund nCvd nOi : ℚ) :
    Except String (ℚ × ℚ × IndicatorSet) :=
  if run_market_metrics_argCount = generate_market_metrics_paramCount then
    let pc := generate_market_metrics base_volatility current_price md
      longC medC shortC microC z baseVolGauss
    let newPrice := current_price * (1 + pc.1)
    let newVolume := current_volume * (1 + pc.2)
    if run_indicators_argCount = generate_indicators_paramCount then
      Except.ok (newPrice, newVolume,
        generate_indicators newVolume md nRsi nMacd nObv nFund nCvd nOi)
    else
      Except.error "TypeError: generate_indicators takes 2 positional arguments but 3 were given"
  else
    Except.error "TypeError: generate_market_metrics takes 3 positional arguments but 4 were given"

/-- Per-tick mutable state of the market loop (simulator.py, lines 85 to
88 set it up; lines 100 to 104 update it). -/
structure MarketState where
  price : ℚ
  volume : ℚ
  high : ℚ
  low : ℚ
deriving DecidableEq, Repr

/-- Initial market state of MarketSimulator.run (simulator.py, lines 77
to 88): price and both bounds start at the snapshot price, the volume at
one twenty-fourth of the 24h snapshot volume. -/
def init_market_state (md : MarketSnapshot) : MarketState :=
  { price := md.price
    volume := md.volume / 24
    high := md.price
    low := md.price }

/-- State update of one tick of the market loop (simulator.py, lines 100
to 104), given the price change and volume change of this tick. -/
def market_tick (s : MarketState) (change : ℚ × ℚ) : MarketState :=
  let newPrice := s.price * (1 + change.1)
  let newVolume := s.volume * (1 + change.2)
  { price := newPrice
    volume := newVolume
    high := max s.high newPrice
    low := min s.low newPrice }

/-- State after a sequence of ticks of the market loop, one entry of the
list per tick. -/
def run_market_ticks (s : MarketState) (changes : List (ℚ × ℚ)) : MarketState :=
  changes.foldl market_tick s

/-- Event template weights computed by MarketEvents.simulate_market_event
from the snapshot (events.py, lines 24 to 30), in the order of the events
list of line 32: ALERT bearish, WARN neutral, INFO bullish. -/
def event_weights (md : MarketSnapshot) : ℚ × ℚ × ℚ :=
  if md.price > md.ath * 0.95 then (0.5, 0.3, 0.2)
  else if md.price < md.atl * 1.2 then (0.2, 0.3, 0.5)
  else (0.33, 0.34, 0.33)

/-- Weighted draw over three alternatives as random.choices performs it:
u is a uniform draw over the interval from 0 to the total weight, and the
index of the first cumulative weight exceeding u is selected. -/
def weighted_choice3 (w0 w1 w2 u : ℚ) : Nat :=
  if u < w0 then 0 else if u < w0 + w1 then 1 else 2

/-- Delay range of each event template of the events list
(events.py, lines 32 to 36). -/
def market_delay_range : Nat → ℚ × ℚ
  | 0 => (2, 5)
  | 1 => (1, 3)
  | _ => (1, 2)

/-- Template selection and delay of MarketEvents.simulate_market_event
(events.py, lines 24 to 53): the template index is a weighted draw with
the weights of event_weights, and the delay is uniform over the selected
delay range.  current_price enters the source only through the message
text, which is not modelled here; u is the weighted-draw position and ud
the uniform(0, 1) position inside the delay range. -/
def simulate_market_event_selection (current_price : ℚ) (md : MarketSnapshot)
    (u ud : ℚ) : Nat × ℚ :=
  let w := event_weights md
  let t := weighted_choice3 w.1 w.2.1 w.2.2 u
  let dr := market_delay_range t
  (t, dr.1 + ud * (dr.2 - dr.1))

/-- Deterministic part of the LLM training loss curve
(llm_simulator/metrics.py, line 14). -/
noncomputable def deterministic_loss_curve (progress : ℝ) : ℝ :=
  2.8 * Real.exp (-progress * 1.2)

/-- Training loss of generate_training_metrics
(llm_simulator/metrics.py, line 14): the decay curve plus the
uniform(0.01, 0.03) noise draw, passed explicitly as noise. -/
noncomputable def train_loss (progress noise : ℝ) : ℝ :=
  deterministic_loss_curve progress + noise

/-- Expected training loss over the noise draw: the uniform(0.01, 0.03)
draw has mean 0.02. -/
noncomputable def expected_train_loss (progress : ℝ) : ℝ :=
  train_loss progress 0.02

/-- Initial best metric of BaseSimulator
(base_simulator.py, line 14): the float positive infinity, modelled as
the top element of the rationals extended with a top. -/
def initial_best_metric : WithTop ℚ := ⊤

/-- Best metric update of SegmentationSimulator.run
(segmentation_simulator/simulator.py, line 137). -/
def update_best_metric (best : WithTop ℚ) (dice_score : ℚ) : WithTop ℚ :=
  max best ↑dice_score

/-- Best metric after any sequence of steps of the segmentation loop, one
dice score per step. -/
def best_metric_after (dice_scores : List ℚ) : WithTop ℚ :=
  dice_scores.foldl update_best_metric initial_best_metric

/-- Error template of the training simulators: severity level, candidate
messages and delay range (base_simulator.py uses them in simulate_issue;
the tables live in each simulator constructor). -/
structure ErrorTemplate where
  level : String
  messages : List String
  delayLo : ℚ
  delayHi : ℚ
deriving DecidableEq, Repr

/-- Error template table of SegmentationSimulator
(segmentation_simulator/simulator.py, lines 30 to 54). -/
def seg_error_templates : List ErrorTemplate :=
  [ { level := "ERROR"
      messages :=
        [ "CUDA out of memory during augmentation batch..."
        , "Detected NaN loss in boundary regions..."
        , "GPU memory fragmentation in feature maps..."
        , "Invalid mask dimensions detected..."
        , "Memory overflow in decoder upsampling..."
        , "Gradient explosion in deep layers..."
        , "Batch normalization statistics unstable..." ]
      delayLo := 3
      delayHi := 8 }
  , { level := "WARN"
      messages :=
        [ "High memory pressure in decoder blocks..."
        , "Skip connections showing high variance..."
        , "Batch size suboptimal for current masks..."
        , "Feature map resolution mismatch..."
        , "Augmentation pipeline bottleneck..." ]
      delayLo := 2
      delayHi := 5 }
  , { level := "INFO"
      messages :=
        [ "Adjusting learning rate for boundary refinement..."
        , "Rebalancing class weights dynamically..."
        , "Optimizing feature pyramid memory usage..."
        , "Adapting augmentation strategy..."
        , "Recalibrating batch normalization..." ]
      delayLo := 1
      delayHi := 3 } ]

/-- BaseSimulator.simulate_issue (base_simulator.py, lines 32 to 43):
random.choice picks the template by a uniform index ti, random.choice
picks the message by a uniform index mi inside the chosen template, and
the delay is uniform over the delay range of the chosen template, with u
the uniform(0, 1) position inside that range.  Returns the chosen
template, the chosen message and the delay. -/
def simulate_issue (templates : List ErrorTemplate)
    (ti : Fin templates.length) (mi : Nat) (u : ℚ) :
    ErrorTemplate × Option String × ℚ :=
  let t := templates.get ti
  (t, t.messages.get? mi, t.delayLo + u * (t.delayHi - t.delayLo))

/-- Call site of simulate_issue inside the training loops
(llm_simulator/simulator.py, line 135 and
segmentation_simulator/simulator.py, line 132): the loop state in scope
at the call, that is the epoch, the step, the progress value and the
best metric, is not passed to simulate_issue. -/
def simulate_issue_in_run (epoch step : Nat) (progress best : ℚ)
    (templates : List ErrorTemplate) (ti : Fin templates.length)
    (mi : Nat) (u : ℚ) : ErrorTemplate × Option String × ℚ :=
  simulate_issue templates ti mi u

/-- Snapshot whose 24h change is large; used to exhibit an unclamped
indicator value. -/
def high_momentum_market_data : MarketSnapshot :=
  { fallback_market_data with priceChange24h := 300 }

/-- Snapshot whose price is close to the all-time high. -/
def near_ath_market_data : MarketSnapshot :=
  { fallback_market_data with price := 68000 }

/-- Snapshot whose price is close to the all-time low. -/
def near_atl_market_data : MarketSnapshot :=
  { fallback_market_data with price := 3500 }

/-- Snapshot whose price is simultaneously above 0.95 times the all-time
high and below 1.2 times the all-time low. -/
def overlap_market_data : MarketSnapshot :=
  { fallback_market_data with price := 100, ath := 100, atl := 100 }

/-- Claim C1: the claim states that every tick of the RUNNING loop of
MarketSimulator.run completes without raising, in particular that every
call of generate_market_metrics from the loop succeeds.  The code
disagrees: the loop passes four positional arguments to the
three-parameter staticmethod, so the call raises a TypeError on every
tick, whatever the snapshot and random draws are.  This theorem
evaluates the modelled loop body at an arbitrary argument tuple and
shows it always returns the TypeError. -/
theorem C1_market_tick_call_type_error
    (elapsed base_volatility current_price current_volume : ℚ)
    (md : MarketSnapshot)
    (longC medC shortC microC z baseVolGauss nRsi nMacd nObv nFund nCvd nOi : ℚ) :
    run_tick elapsed base_volatility current_price current_volume md
        longC medC shortC microC z baseVolGauss nRsi nMacd nObv nFund nCvd nOi
      = Except.error
          "TypeError: generate_market_metrics takes 3 positional arguments but 4 were given" :=
  rfl

/-- Claim C2, amended: only the rsi field of generate_indicators is
clamped to a declared range: for every volume, snapshot and random draws
it lies in the interval from 5 to 95; the funding field is not clamped
and exceeds every fixed bound for suitable finite snapshots, even with
the random draw at zero. -/
theorem C2_rsi_clamped_funding_unbounded (volume : ℚ) (md : MarketSnapshot)
    (nRsi nMacd nObv nFund nCvd nOi : ℚ) :
    (5 ≤ (generate_indicators volume md nRsi nMacd nObv nFund nCvd nOi).rsi
      ∧ (generate_indicators volume md nRsi nMacd nObv nFund nCvd nOi).rsi ≤ 95)
    ∧ ∀ bound : ℚ, ∃ md2 : MarketSnapshot,
        bound < (generate_indicators 1 md2 0 0 1 0 0 1).funding := by
  constructor
  · exact ⟨le_max_right _ _, max_le (min_le_right _ _) (by norm_num)⟩
  · intro bound
    refine ⟨{ fallback_market_data with priceChange24h := (bound + 1) * 1000 }, ?_⟩
    show bound < (bound + 1) * 1000 / 100 * 0.1 + 0
    nlinarith [sq_nonneg bound]

/-- Claim C2, counterexample: the claim asserts that the funding field
lies in the interval from -0.2 to 0.2 for every input and every random
draw; at a snapshot whose 24h change is 300 percent, with the
uniform(-0.05, 0.05) draw at 0 (inside its legitimate range), the
funding field equals 0.3. -/
theorem C2_funding_exceeds_bound_cex :
    (0.2 : ℚ) < (generate_indicators 1 high_momentum_market_data 0 0 1 0 0 1).funding
    ∧ (-0.05 : ℚ) ≤ 0 ∧ (0 : ℚ) ≤ 0.05 := by
  refine ⟨?_, by norm_num, by norm_num⟩
  show (0.2 : ℚ) < 300 / 100 * 0.1 + 0
  norm_num

/-- Claim C3, counterexample: the claim asserts that the ath term is
larger in magnitude the closer the current price is to the all-time
high.  With the all-time high at 100 and the two prices 50 and 90, both
strictly between 0 and the all-time high, the price 90 is closer to the
all-time high yet its ath term is strictly smaller in magnitude. -/
theorem C3_ath_proximity_cex :
    (0 : ℚ) < 50 ∧ (50 : ℚ) < 90 ∧ (90 : ℚ) < 100
    ∧ |ath_influence 100 90| < |ath_influence 100 50| := by
  have e1 : ath_influence 100 90 = -(1 / 100) := by unfold ath_influence; norm_num
  have e2 : ath_influence 100 50 = -(1 / 20) := by unfold ath_influence; norm_num
  refine ⟨by norm_num, by norm_num, by norm_num, ?_⟩
  rw [e1, e2, abs_neg, abs_neg, abs_of_nonneg (by norm_num : (0:ℚ) ≤ 1 / 100),
    abs_of_nonneg (by norm_num : (0:ℚ) ≤ 1 / 20)]
  norm_num

/-- Claim C3, amended: the ath term is nonpositive (a downward pull) and
its magnitude is 0.1 times the relative distance of the current price
from the all-time high, hence it is strictly smaller the closer the
current price is to the all-time high; symmetrically the atl term is
nonnegative (an upward pull) with magnitude 0.1 times the relative
distance from the all-time low, strictly larger the farther the current
price is above the all-time low. -/
theorem C3_reversion_terms_amended (ath atl p1 p2 : ℚ)
    (h0 : 0 < p1) (h12 : p1 < p2) (h2a : p2 < ath)
    (hatl0 : 0 < atl) (hatl1 : atl < p1) :
    ath_influence ath p1 ≤ 0
    ∧ |ath_influence ath p1| = 0.1 * ((ath - p1) / ath)
    ∧ |ath_influence ath p2| < |ath_influence ath p1|
    ∧ 0 ≤ atl_influence atl p1
    ∧ atl_influence atl p1 = 0.1 * ((p1 - atl) / p1)
    ∧ atl_influence atl p1 < atl_influence atl p2 := by
  have hath : (0 : ℚ) < ath := h0.trans (h12.trans h2a)
  have e1 : ath_influence ath p1 = -(0.1 * ((ath - p1) / ath)) := by
    unfold ath_influence; ring
  have e2 : ath_influence ath p2 = -(0.1 * ((ath - p2) / ath)) := by
    unfold ath_influence; ring
  have hnn1 : 0 ≤ 0.1 * ((ath - p1) / ath) :=
    mul_nonneg (by norm_num) (div_nonneg (by linarith) hath.le)
  have hnn2 : 0 ≤ 0.1 * ((ath - p2) / ath) :=
    mul_nonneg (by norm_num) (div_nonneg (by linarith) hath.le)
  have habs1 : |ath_influence ath p1| = 0.1 * ((ath - p1) / ath) := by
    rw [e1, abs_neg, abs_of_nonneg hnn1]
  have habs2 : |ath_influence ath p2| = 0.1 * ((ath - p2) / ath) := by
    rw [e2, abs_neg, abs_of_nonneg hnn2]
  have e3 : atl_influence atl p1 = 0.1 * ((p1 - atl) / p1) := by
    unfold atl_influence; ring
  have e4 : atl_influence atl p2 = 0.1 * ((p2 - atl) / p2) := by
    unfold atl_influence; ring
  refine ⟨?_, habs1, ?_, ?_, e3, ?_⟩
  · rw [e1]; exact neg_nonpos.mpr hnn1
  · rw [habs1, habs2]
    have hdiv : (ath - p2) / ath < (ath - p1) / ath :=
      (div_lt_div_iff_of_pos_right hath).mpr (by linarith)
    exact mul_lt_mul_of_pos_left hdiv (by norm_num)
  · rw [e3]; exact mul_nonneg (by norm_num) (div_nonneg (by linarith) h0.le)
  · rw [e3, e4]
    have hdiv : (p1 - atl) / p1 < (p2 - atl) / p2 := by
      rw [div_lt_div_iff₀ h0 (h0.trans h12)]
      nlinarith
    nlinarith [hdiv]

theorem C3_reversion_terms_amended_witness :
    ath_influence 100 50 ≤ 0
    ∧ |ath_influence 100 50| = 0.1 * ((100 - 50) / 100)
    ∧ |ath_influence 100 90| < |ath_influence 100 50|
    ∧ 0 ≤ atl_influence 10 50
    ∧ atl_influence 10 50 = 0.1 * ((50 - 10) / 50)
    ∧ atl_influence 10 50 < atl_influence 10 90 :=
  C3_reversion_terms_amended 100 10 50 90 (by norm_num) (by norm_num)
    (by norm_num) (by norm_num) (by norm_num)

lemma run_market_ticks_cons (s : MarketState) (c : ℚ × ℚ) (cs : List (ℚ × ℚ)) :
    run_market_ticks s (c :: cs) = run_market_ticks (market_tick s c) cs := rfl

lemma run_market_ticks_high_mono (changes : List (ℚ × ℚ)) :
    ∀ s : MarketState, s.high ≤ (run_market_ticks s changes).high := by
  induction changes with
  | nil => intro s; exact le_refl _
  | cons c cs ih =>
      intro s
      rw [run_market_ticks_cons]
      exact le_trans (le_max_left _ _) (ih (market_tick s c))

lemma run_market_ticks_low_anti (changes : List (ℚ × ℚ)) :
    ∀ s : MarketState, (run_market_ticks s changes).low ≤ s.low := by
  induction changes with
  | nil => intro s; exact le_refl _
  | cons c cs ih =>
      intro s
      rw [run_market_ticks_cons]
      exact le_trans (ih (market_tick s c)) (min_le_left _ _)

lemma run_market_ticks_sandwich (changes : List (ℚ × ℚ)) :
    ∀ s : MarketState, s.low ≤ s.price → s.price ≤ s.high →
      (run_market_ticks s changes).low ≤ (run_market_ticks s changes).price
      ∧ (run_market_ticks s changes).price ≤ (run_market_ticks s changes).high := by
  induction changes with
  | nil => intro s h1 h2; exact ⟨h1, h2⟩
  | cons c cs ih =>
      intro s _ _
      rw [run_market_ticks_cons]
      exact ih (market_tick s c) (min_le_right _ _) (le_max_right _ _)

/-- Claim C4: each tick updates the high bound to the maximum of the old
bound and the new price, and the low bound to the minimum, exactly once;
hence across any sequence of ticks the high bound is non-decreasing and
the low bound is non-increasing, and from the initial state of the loop
the low bound never exceeds the current price and the current price
never exceeds the high bound. -/
theorem C4_bounds_monotone :
    (∀ (s : MarketState) (c : ℚ × ℚ),
        (market_tick s c).high = max s.high (market_tick s c).price
        ∧ (market_tick s c).low = min s.low (market_tick s c).price)
    ∧ (∀ (s : MarketState) (changes : List (ℚ × ℚ)),
        s.high ≤ (run_market_ticks s changes).high
        ∧ (run_market_ticks s changes).low ≤ s.low)
    ∧ (∀ (md : MarketSnapshot) (changes : List (ℚ × ℚ)),
        (run_market_ticks (init_market_state md) changes).low
            ≤ (run_market_ticks (init_market_state md) changes).price
        ∧ (run_market_ticks (init_market_state md) changes).price
            ≤ (run_market_ticks (init_market_state md) changes).high) := by
  refine ⟨fun s c => ⟨rfl, rfl⟩, fun s changes => ?_, fun md changes => ?_⟩
  · exact ⟨run_market_ticks_high_mono changes s, run_market_ticks_low_anti changes s⟩
  · exact run_market_ticks_sandwich changes (init_market_state md)
      (le_refl _) (le_refl _)

/-- Claim C5, counterexample: the claim asserts that in every context
whose price is below 1.2 times the all-time low the favorable template
weight is at least the adverse template weight.  In the context whose
price, all-time high and all-time low all equal 100, the price is below
1.2 times the all-time low, yet the favorable weight 0.2 is strictly
below the adverse weight 0.5, because the near-all-time-high branch
takes precedence. -/
theorem C5_overlap_regime_cex :
    overlap_market_data.price < overlap_market_data.atl * 1.2
    ∧ (event_weights overlap_market_data).2.2 < (event_weights overlap_market_data).1 := by
  constructor
  · show (100 : ℚ) < 100 * 1.2
    norm_num
  · have h : event_weights overlap_market_data = (0.5, 0.3, 0.2) := by
      unfold event_weights
      rw [if_pos (by show (100 : ℚ) > 100 * 0.95; norm_num)]
    rw [h]
    norm_num

/-- Claim C5, amended: when the snapshot price exceeds 0.95 times the
all-time high the adverse template weight is at least the favorable one;
when the price is below 1.2 times the all-time low and not above 0.95
times the all-time high the favorable weight is at least the adverse
one; otherwise the three weights are the near-uniform triple. -/
theorem C5_regime_weights_amended (md : MarketSnapshot) :
    (md.price > md.ath * 0.95 →
        (event_weights md).2.2 ≤ (event_weights md).1)
    ∧ (¬ md.price > md.ath * 0.95 → md.price < md.atl * 1.2 →
        (event_weights md).1 ≤ (event_weights md).2.2)
    ∧ (¬ md.price > md.ath * 0.95 → ¬ md.price < md.atl * 1.2 →
        event_weights md = (0.33, 0.34, 0.33)) := by
  unfold event_weights
  refine ⟨fun h => ?_, fun h1 h2 => ?_, fun h1 h2 => ?_⟩
  · rw [if_pos h]; norm_num
  · rw [if_neg h1, if_pos h2]; norm_num
  · rw [if_neg h1, if_neg h2]

theorem C5_regime_weights_amended_witness :
    ((event_weights near_ath_market_data).2.2 ≤ (event_weights near_ath_market_data).1)
    ∧ ((event_weights near_atl_market_data).1 ≤ (event_weights near_atl_market_data).2.2)
    ∧ event_weights fallback_market_data = (0.33, 0.34, 0.33) :=
  ⟨(C5_regime_weights_amended near_ath_market_data).1
      (by show (68000 : ℚ) > 69000 * 0.95; norm_num),
   (C5_regime_weights_amended near_atl_market_data).2.1
      (by show ¬ (3500 : ℚ) > 69000 * 0.95; norm_num)
      (by show (3500 : ℚ) < 3000 * 1.2; norm_num),
   (C5_regime_weights_amended fallback_market_data).2.2
      (by show ¬ (42000 : ℚ) > 69000 * 0.95; norm_num)
      (by show ¬ (42000 : ℚ) < 3000 * 1.2; norm_num)⟩

/-- Claim C6: whenever the snapshot fetch fails, get_market_data returns
exactly the documented hardcoded fallback record, with the ten
documented field values, and propagates no failure. -/
theorem C6_snapshot_fallback (e : String) :
    get_market_data (Except.error e) = fallback_market_data
    ∧ fallback_market_data.price = 42000
    ∧ fallback_market_data.volume = 5000000
    ∧ fallback_market_data.high24h = 43000
    ∧ fallback_market_data.low24h = 41000
    ∧ fallback_market_data.priceChange24h = -1.5
    ∧ fallback_market_data.marketCap = 800000000000
    ∧ fallback_market_data.ath = 69000
    ∧ fallback_market_data.atl = 3000
    ∧ fallback_market_data.volatility = 0.02
    ∧ fallback_market_data.dominance = 45 :=
  ⟨rfl, rfl, rfl, rfl, rfl, rfl, rfl, rfl, rfl, rfl, rfl⟩

/-- Claim C7: the expected training loss of the LLM simulator is
strictly decreasing in the progress value, and for every progress value
and every noise draw inside the uniform(0.01, 0.03) range the loss lies
between the deterministic curve value plus 0.01 and the deterministic
curve value plus 0.03. -/
theorem C7_loss_curve :
    (∀ p1 p2 : ℝ, p1 < p2 → expected_train_loss p2 < expected_train_loss p1)
    ∧ (∀ p noise : ℝ, 0.01 ≤ noise → noise ≤ 0.03 →
        deterministic_loss_curve p + 0.01 ≤ train_loss p noise
        ∧ train_loss p noise ≤ deterministic_loss_curve p + 0.03) := by
  constructor
  · intro p1 p2 h
    unfold expected_train_loss train_loss deterministic_loss_curve
    have hexp : Real.exp (-p2 * 1.2) < Real.exp (-p1 * 1.2) :=
      Real.exp_lt_exp.mpr (by nlinarith)
    linarith
  · intro p noise h1 h2
    unfold train_loss
    exact ⟨by linarith, by linarith⟩

theorem C7_loss_curve_witness :
    expected_train_loss 1 < expected_train_loss 0
    ∧ (deterministic_loss_curve 0 + 0.01 ≤ train_loss 0 0.02
       ∧ train_loss 0 0.02 ≤ deterministic_loss_curve 0 + 0.03) :=
  ⟨C7_loss_curve.1 0 1 (by norm_num),
   C7_loss_curve.2 0 0.02 (by norm_num) (by norm_num)⟩

lemma foldl_update_best_top (dice_scores : List ℚ) :
    dice_scores.foldl update_best_metric ⊤ = ⊤ := by
  induction dice_scores with
  | nil => rfl
  | cons d ds ih =>
      have h : update_best_metric ⊤ d = ⊤ := max_eq_left le_top
      rw [List.foldl_cons, h, ih]

/-- Claim C8: starting from the float positive infinity and updating
only by taking the maximum with each dice score, the best metric of the
segmentation simulator equals positive infinity after every sequence of
steps, and in particular never equals any finite dice score, so the Best
value printed by the training summary is always infinite. -/
theorem C8_best_metric_stuck_at_top (dice_scores : List ℚ) :
    best_metric_after dice_scores = ⊤
    ∧ ∀ q : ℚ, best_metric_after dice_scores ≠ ↑q := by
  have h : best_metric_after dice_scores = ⊤ := foldl_update_best_top dice_scores
  exact ⟨h, fun q hq => by rw [h] at hq; exact (WithTop.coe_ne_top hq.symm)⟩

/-- Claim C9: the template selection and delay of
simulate_market_event depend only on the static snapshot and the random
draws, never on the evolved current price: two calls sharing the same
snapshot and draws select identically whatever their current prices. -/
theorem C9_weights_ignore_current_price (p1 p2 : ℚ) (md : MarketSnapshot)
    (u ud : ℚ) :
    simulate_market_event_selection p1 md u ud
      = simulate_market_event_selection p2 md u ud := rfl

/-- Index of the first template of the segmentation error table. -/
def seg_template0_idx : Fin seg_error_templates.length := ⟨0, by decide⟩

/-- Claim C10: simulate_issue ignores the training state in scope at its
call sites; each of the three equally likely template indices of the
segmentation table selects a distinct template, so the selection is
uniform with probability one third per template; the message is taken
directly from the chosen template candidate list by the uniform message
index; and the delay lies inside the delay range of the chosen template
whenever the range is nonempty. -/
theorem C10_issue_selection_uniform :
    (∀ (e1 s1 : Nat) (p1 b1 : ℚ) (e2 s2 : Nat) (p2 b2 : ℚ)
        (T : List ErrorTemplate) (ti : Fin T.length) (mi : Nat) (u : ℚ),
        simulate_issue_in_run e1 s1 p1 b1 T ti mi u
          = simulate_issue_in_run e2 s2 p2 b2 T ti mi u)
    ∧ (∀ j : Fin seg_error_templates.length,
        (Finset.univ.filter (fun i : Fin seg_error_templates.length =>
          (simulate_issue seg_error_templates i 0 0).1
            = seg_error_templates.get j)).card = 1)
    ∧ (∀ (T : List ErrorTemplate) (ti : Fin T.length) (mi : Nat) (u : ℚ),
        (simulate_issue T ti mi u).2.1 = (T.get ti).messages.get? mi)
    ∧ (∀ (T : List ErrorTemplate) (ti : Fin T.length) (mi : Nat) (u : ℚ),
        0 ≤ u → u ≤ 1 → (T.get ti).delayLo ≤ (T.get ti).delayHi →
          (T.get ti).delayLo ≤ (simulate_issue T ti mi u).2.2
          ∧ (simulate_issue T ti mi u).2.2 ≤ (T.get ti).delayHi) := by
  refine ⟨fun _ _ _ _ _ _ _ _ _ _ _ _ => rfl, by decide, fun _ _ _ _ => rfl,
    fun T ti mi u hu0 hu1 hlo => ?_⟩
  constructor
  · have h : 0 ≤ u * ((T.get ti).delayHi - (T.get ti).delayLo) :=
      mul_nonneg hu0 (by linarith)
    show (T.get ti).delayLo ≤ (T.get ti).delayLo + u * ((T.get ti).delayHi - (T.get ti).delayLo)
    linarith
  · have h : u * ((T.get ti).delayHi - (T.get ti).delayLo)
        ≤ (T.get ti).delayHi - (T.get ti).delayLo := by
      nlinarith
    show (T.get ti).delayLo + u * ((T.get ti).delayHi - (T.get ti).delayLo)
        ≤ (T.get ti).delayHi
    linarith

theorem C10_issue_selection_uniform_witness :
    (seg_error_templates.get seg_template0_idx).delayLo
        ≤ (simulate_issue seg_error_templates seg_template0_idx 0 (1/2)).2.2
    ∧ (simulate_issue seg_error_templates seg_template0_idx 0 (1/2)).2.2
        ≤ (seg_error_templates.get seg_template0_idx).delayHi :=
  C10_issue_selection_uniform.2.2.2 seg_error_templates seg_template0_idx 0 (1/2)
    (by norm_num) (by norm_num) (by norm_num [seg_template0_idx, seg_error_templates])

end Screensavers
